import Mathlib

/-!
Shallow embedding of the LangGraph-Agent client-side streaming/session logic.

Namespaces:
* `LGA`    — shared data model: message roles, DOM content blocks, stream events,
             transport frames, and segment extraction.
* `LGA.HL` — the human-in-the-loop app (`src/unnamed/part_001`, first
             `HumanLoopApp` class definition): session state, the turn stream
             handler (`streamChatResponse` onmessage/onerror), the resumption
             stream handler (`submitHumanResponse` es.onmessage), `sendMessage`,
             `resetConversation`.
* `LGA.TA` — the tool assistant (`src/unnamed/part_000`, `ToolAssistant`):
             its stream handler used for the tool/segment scenario.
* `LGA.CS` — the customize-state app (`src/static/tool/script.js`,
             `CustomizeStateApp`): resumption payload construction.

Modelling conventions: the DOM content of one chat message is a list of
`Block`s mirroring the child nodes of its `.content` div; markdown rendering
(`marked.parse`) is treated as the identity on the accumulated text;
`EventSource` connections are entries of a `transports : List Bool` open-flag
list (the browser delivers a message event only while the connection is open,
so the stream drivers guard each frame on the open flag); `console.error`
reports are collected by a separate diagnostics function rather than stored in
the state, matching an external sink.
-/

namespace LGA

/-- Chat message role (the `user` / `assistant` CSS class). -/
inductive Role
  | user
  | assistant
deriving DecidableEq

/-- One child node of a message's `.content` div. -/
inductive Block
  | thinking
  | para (text : String)
  | decision (text : String)
  | toolCallB (name : String) (args : String)
  | toolResultB (result : String)
  | aiSection (text : String)
  | errorMsg (text : String)
deriving DecidableEq

/-- One chat message: DOM node identity plus role and content children. -/
structure Msg where
  id : Nat
  role : Role
  blocks : List Block
deriving DecidableEq

/-- Decoded SSE event (the `type` tag plus its payload fields). -/
inductive StreamEvent
  | start
  | content (text : String)
  | aiDecision (note : String)
  | toolCall (name : String) (args : String)
  | toolResult (result : String)
  | intervention (query : String)
  | endEv
  | errEv (message : String)
deriving DecidableEq

/-- One raw transport frame: either it JSON-decodes to an event, or it is
malformed and `JSON.parse` throws. -/
inductive Frame
  | ok (e : StreamEvent)
  | malformed (raw : String)
deriving DecidableEq

/-- JavaScript `String.prototype.trim()`: strip leading and trailing
whitespace (modelled by structural recursion so that it evaluates by
kernel reduction). -/
def jsTrim (s : String) : String :=
  ⟨((s.data.dropWhile Char.isWhitespace).reverse.dropWhile Char.isWhitespace).reverse⟩

/-- Does the content div already show tool activity
(`.ai-decision-info, .tool-call-info, .tool-result-info` selector)? -/
def hasToolInfo (bs : List Block) : Bool :=
  bs.any fun b =>
    match b with
    | .decision _ => true
    | .toolCallB _ _ => true
    | .toolResultB _ => true
    | _ => false

/-- Does the content div show the thinking placeholder
(the `innerHTML.includes` check on the placeholder paragraph)? -/
def containsThinking (bs : List Block) : Bool :=
  bs.any fun b =>
    match b with
    | .thinking => true
    | _ => false

/-- Text accumulated directly in the content div (outside any
ai-response-section); this is the first Segment of a message. -/
def primaryText (bs : List Block) : String :=
  bs.foldl (fun acc b =>
    match b with
    | .para t => acc ++ t
    | _ => acc) ""

/-- Texts of the ai-response-content areas, in order; each
ai-response-section is a further Segment. -/
def sectionTexts (bs : List Block) : List String :=
  bs.filterMap fun b =>
    match b with
    | .aiSection t => some t
    | _ => none

/-- The Segments of one message: the direct content area first, then each
ai-response-section in order. -/
def segmentsOf (m : Msg) : List String :=
  primaryText m.blocks :: sectionTexts m.blocks

/-- Open flag of a transport handle (none = no connection). -/
def flagOpen (ts : List Bool) (i : Option Nat) : Bool :=
  match i with
  | some k => ts.getD k false
  | none => false

end LGA

namespace LGA.HL

/-- Mutable state of `HumanLoopApp` (`src/unnamed/part_001`, first class):
instance fields, the handler closure variables of the resumption stream
(`assistantMsg`, `contentBuf` as `resumeMsg`, `resumeBuf`), the untrimmed
text of the input box, and the transport open flags. -/
structure State where
  threadId : String
  isProcessing : Bool
  isWaitingForHumanInput : Bool
  currentInterventionQuery : Option String
  status : String × String
  transports : List Bool
  currentES : Option Nat
  resumeES : Option Nat
  messages : List Msg
  nextMsgId : Nat
  currentAssistantMessage : Option Nat
  currentContent : String
  aiResponseContainer : Option (Nat × Nat)
  resumeMsg : Option Nat
  resumeBuf : String
  userInput : String
  sendButtonDisabled : Bool
  notifications : List String
  alerts : List String
deriving DecidableEq

/-- Model of `initThreadId`: timestamp plus random suffix. -/
def initThreadId (ts : Nat) (rnd : String) : String :=
  "human_loop_" ++ toString ts ++ "_" ++ rnd

/-- Fresh app state (constructor), with the generator inputs for the
initial `initThreadId` call supplied explicitly. -/
def mkState (ts : Nat) (rnd : String) : State where
  threadId := initThreadId ts rnd
  isProcessing := false
  isWaitingForHumanInput := false
  currentInterventionQuery := none
  status := ("ready", "就绪")
  transports := []
  currentES := none
  resumeES := none
  messages := []
  nextMsgId := 0
  currentAssistantMessage := none
  currentContent := ""
  aiResponseContainer := none
  resumeMsg := none
  resumeBuf := ""
  userInput := ""
  sendButtonDisabled := false
  notifications := []
  alerts := []

/-- Open a new `EventSource` and store it in `this.currentEventSource`. -/
def openES (s : State) : State :=
  { s with transports := s.transports ++ [true], currentES := some s.transports.length }

/-- Open a new `EventSource` bound to the local `es` variable of
`submitHumanResponse` (note: `this.currentEventSource` is not updated there). -/
def openResumeES (s : State) : State :=
  { s with transports := s.transports ++ [true], resumeES := some s.transports.length }

/-- Is the turn stream (`this.currentEventSource`) open? -/
def esOpenB (s : State) : Bool :=
  flagOpen s.transports s.currentES

/-- Is the resumption stream (the local `es`) open? -/
def resumeOpenB (s : State) : Bool :=
  flagOpen s.transports s.resumeES

/-- Model of `close()` on the transport handle `i`. -/
def closeES (s : State) (i : Option Nat) : State :=
  match i with
  | some k => { s with transports := s.transports.set k false }
  | none => s

/-- Model of `addMessage(role, content, isEmpty)`: appends a message div; an empty
message has no content children, otherwise the markdown of `content` is its
single child. Returns the new message's identity. -/
def addMessage (s : State) (role : Role) (content : String) (isEmpty : Bool) :
    State × Nat :=
  let blocks := if isEmpty then [] else [Block.para content]
  ({ s with
      messages := s.messages ++ [⟨s.nextMsgId, role, blocks⟩]
      nextMsgId := s.nextMsgId + 1 },
   s.nextMsgId)

/-- Replace the content children of message `mid`. -/
def updateBlocks (s : State) (mid : Nat) (f : List Block → List Block) : State :=
  { s with
      messages := s.messages.map fun m =>
        if m.id = mid then { m with blocks := f m.blocks } else m }

/-- Current content children of message `mid`. -/
def blocksOf (s : State) (mid : Nat) : List Block :=
  ((s.messages.find? fun m => m.id = mid).map Msg.blocks).getD []

/-- Model of `ensureAssistantMessage()`: lazily create the response placeholder. -/
def ensureAssistantMessage (s : State) : State × Nat :=
  match s.currentAssistantMessage with
  | some mid => (s, mid)
  | none =>
      let p := addMessage s .assistant "" true
      ({ p.1 with currentAssistantMessage := some p.2 }, p.2)

/-- Model of `addAIDecisionInfo`: clear the thinking placeholder if shown, then append
the decision header (with the default text for a falsy `data.content`). -/
def addAIDecisionInfo (s : State) (mid : Nat) (note : String) : State :=
  let s := if containsThinking (blocksOf s mid) then updateBlocks s mid (fun _ => []) else s
  let txt := if note = "" then "🤖 AI决定调用工具" else note
  updateBlocks s mid (fun bs => bs ++ [Block.decision txt])

/-- Model of `addToolCallInfo`: append the tool call header and argument block. -/
def addToolCallInfo (s : State) (mid : Nat) (name args : String) : State :=
  updateBlocks s mid (fun bs => bs ++ [Block.toolCallB name args])

/-- Model of `addToolResultInfo`: append the tool result block, then an
ai-response-section; point `aiResponseContainer` at its content area and reset
the accumulated text. -/
def addToolResultInfo (s : State) (mid : Nat) (result : String) : State :=
  let idx := (blocksOf s mid).length + 1
  let s := updateBlocks s mid (fun bs => bs ++ [Block.toolResultB result, Block.aiSection ""])
  { s with aiResponseContainer := some (mid, idx), currentContent := "" }

/-- Model of `renderMarkdownContent` into the ai-response-content at `(mid, idx)`. -/
def setSection (s : State) (mid idx : Nat) (text : String) : State :=
  updateBlocks s mid (fun bs => bs.set idx (Block.aiSection text))

/-- Second `updateStatus` definition (the one that wins): class plus text. -/
def updateStatus (s : State) (ty txt : String) : State :=
  { s with status := (ty, txt) }

/-- Model of `showInterventionInChat(query)`: record the query, enter the
awaiting-human UI state, remove the thinking placeholder message, and append
the intervention prompt message. -/
def showInterventionInChat (s : State) (q : String) : State :=
  let s := { s with currentInterventionQuery := some q, isWaitingForHumanInput := true }
  let s :=
    match s.currentAssistantMessage with
    | some mid =>
        { s with
            messages := s.messages.filter fun m => m.id ≠ mid
            currentAssistantMessage := none }
    | none => s
  (addMessage s .assistant
    ("🤝 **需要人工专家协助**\n\n**问题：** " ++ q ++
     "\n\n💡 请在下方输入框中提供您的专业建议或回复，然后点击“提交回复”按钮。") false).1

/-- Model of `resetInterventionState()`. -/
def resetInterventionState (s : State) : State :=
  { s with isWaitingForHumanInput := false, currentInterventionQuery := none }

/-- The `content` case of the turn stream handler: pick the render target
(existing ai-response-section, a freshly created one if tool info is shown, or
the content div itself), accumulate, and re-render the full text. -/
def onContentTurn (s : State) (txt : String) : State :=
  let p := ensureAssistantMessage s
  let s := p.1
  let mid := p.2
  match s.aiResponseContainer with
  | some (m, idx) =>
      let s := { s with currentContent := s.currentContent ++ txt }
      setSection s m idx s.currentContent
  | none =>
      if hasToolInfo (blocksOf s mid) then
        let idx := (blocksOf s mid).length
        let s := updateBlocks s mid (fun bs => bs ++ [Block.aiSection ""])
        let s := { s with
          aiResponseContainer := some (mid, idx)
          currentContent := s.currentContent ++ txt }
        setSection s mid idx s.currentContent
      else
        let s := { s with currentContent := s.currentContent ++ txt }
        updateBlocks s mid (fun _ => [Block.para s.currentContent])

/-- One delivery of the turn stream's `onmessage` handler
(`streamChatResponse`): a malformed frame throws in `JSON.parse` and is
swallowed by the catch; a decoded event is dispatched by `data.type`. -/
def onTurnFrame (s : State) (f : Frame) : State :=
  match f with
  | .malformed _ => s
  | .ok e =>
    match e with
    | .start =>
        let p := ensureAssistantMessage s
        updateBlocks p.1 p.2 (fun _ => [Block.thinking])
    | .content txt => onContentTurn s txt
    | .aiDecision note =>
        let p := ensureAssistantMessage s
        addAIDecisionInfo p.1 p.2 note
    | .toolCall name args =>
        let p := ensureAssistantMessage s
        addToolCallInfo p.1 p.2 name args
    | .toolResult result =>
        let p := ensureAssistantMessage s
        addToolResultInfo p.1 p.2 result
    | .endEv =>
        let s := closeES s s.currentES
        let s := updateStatus s "ready" "就绪"
        { s with isProcessing := false, sendButtonDisabled := false }
    | .intervention q =>
        let s := closeES s s.currentES
        let s := showInterventionInChat s q
        let s := updateStatus s "intervention" "等待人工协助..."
        { s with isProcessing := false, sendButtonDisabled := false }
    | .errEv msg =>
        let s := closeES s s.currentES
        let p := ensureAssistantMessage s
        let s := updateBlocks p.1 p.2 (fun _ => [Block.errorMsg msg])
        let s := updateStatus s "error" "错误"
        { s with isProcessing := false, sendButtonDisabled := false }

/-- Deliver a list of frames to the turn stream handler; the browser fires
`onmessage` only while the connection is open. -/
def runTurn (s : State) : List Frame → State
  | [] => s
  | f :: fs => runTurn (if esOpenB s then onTurnFrame s f else s) fs

/-- The `console.error` reports of the turn stream handler's catch clause:
one per malformed frame delivered while the connection is open. -/
def turnDiagnostics (s : State) : List Frame → List String
  | [] => []
  | f :: fs =>
      if esOpenB s then
        (match f with
         | .malformed raw => [raw]
         | .ok _ => []) ++ turnDiagnostics (onTurnFrame s f) fs
      else
        turnDiagnostics s fs

/-- The turn stream's `onerror` handler: close, show the generic connection
error status, clear the busy flags, and surface the fallback failure message
when no content was produced. -/
def onTurnError (s : State) : State :=
  let s := closeES s s.currentES
  let s := updateStatus s "error" "连接错误"
  let s := { s with isProcessing := false, sendButtonDisabled := false }
  if s.currentAssistantMessage.isNone ∨ s.currentContent = "" then
    (addMessage s .assistant "连接失败，请稍后再试。" false).1
  else
    s

/-- Model of `streamChatResponse` setup: clear the per-turn fields and open the
turn `EventSource` (the previous one, if any, is not closed). -/
def streamChatResponse (s : State) : State :=
  let s := { s with
    currentAssistantMessage := none
    currentContent := ""
    aiResponseContainer := none }
  openES s

/-- Model of `submitHumanResponse(response)`: reject an empty response with a
notification; otherwise record the expert reply, leave the awaiting-human
state, set the busy flags, open the resumption `EventSource` (bound to the
local `es`), and create the streaming placeholder message. -/
def submitHumanResponse (s : State) (response : String) : State :=
  if response = "" then
    { s with notifications := s.notifications ++ ["请输入回复内容"] }
  else
    let s := (addMessage s .user ("💼 **专家回复：** " ++ response) false).1
    let s := { s with userInput := "" }
    let s := resetInterventionState s
    let s := updateStatus s "processing" "处理专家回复中..."
    let s := { s with isProcessing := true, sendButtonDisabled := true }
    let s := openResumeES s
    let p := addMessage s .assistant "" false
    { p.1 with resumeMsg := some p.2, resumeBuf := "", aiResponseContainer := none }

/-- The `content` case of the resumption stream handler: same target
selection as in a first turn, but accumulating into the closure variable
`contentBuf`. -/
def onContentResume (s : State) (txt : String) : State :=
  match s.resumeMsg with
  | none => s
  | some mid =>
    match s.aiResponseContainer with
    | some (m, idx) =>
        let s := { s with resumeBuf := s.resumeBuf ++ txt }
        setSection s m idx s.resumeBuf
    | none =>
        if hasToolInfo (blocksOf s mid) then
          let idx := (blocksOf s mid).length
          let s := updateBlocks s mid (fun bs => bs ++ [Block.aiSection ""])
          let s := { s with
            aiResponseContainer := some (mid, idx)
            resumeBuf := s.resumeBuf ++ txt }
          setSection s mid idx s.resumeBuf
        else
          let s := { s with resumeBuf := s.resumeBuf ++ txt }
          updateBlocks s mid (fun _ => [Block.para s.resumeBuf])

/-- One delivery of the resumption stream's `es.onmessage` handler inside
`submitHumanResponse`. Note the `intervention_required` case closes `es` and
re-enters the awaiting-human UI state, but does not clear `isProcessing`. -/
def onResumeFrame (s : State) (f : Frame) : State :=
  match f with
  | .malformed _ => s
  | .ok e =>
    match e with
    | .start => s
    | .content txt => onContentResume s txt
    | .aiDecision note =>
        match s.resumeMsg with
        | some mid => addAIDecisionInfo s mid note
        | none => s
    | .toolCall name args =>
        match s.resumeMsg with
        | some mid => addToolCallInfo s mid name args
        | none => s
    | .toolResult result =>
        match s.resumeMsg with
        | some mid => addToolResultInfo s mid result
        | none => s
    | .intervention q =>
        let s := closeES s s.resumeES
        let s := showInterventionInChat s (if q = "" then "需要人工协助" else q)
        updateStatus s "intervention" "等待人工协助..."
    | .endEv =>
        let s := closeES s s.resumeES
        let s := updateStatus s "ready" "就绪"
        let s := { s with isProcessing := false, sendButtonDisabled := false }
        { s with notifications := s.notifications ++ ["人工协助完成"] }
    | .errEv msg =>
        let s := closeES s s.resumeES
        let s := updateStatus s "error" "错误"
        { s with alerts := s.alerts ++
            ["流式恢复失败：" ++ (if msg = "" then "未知错误" else msg)] }

/-- Deliver a list of frames to the resumption stream handler. -/
def runResume (s : State) : List Frame → State
  | [] => s
  | f :: fs => runResume (if resumeOpenB s then onResumeFrame s f else s) fs

/-- Put text in the input box. -/
def setUserInput (s : State) (x : String) : State :=
  { s with userInput := x }

/-- Model of `sendMessage()`: trim the input; reject when empty or while processing;
dispatch to `submitHumanResponse` when awaiting a human; otherwise start a
turn (busy flags, record the user message, clear the input, open the turn
stream). -/
def sendMessage (s : State) : State :=
  let message := jsTrim s.userInput
  if message = "" ∨ s.isProcessing = true then s
  else if s.isWaitingForHumanInput then
    submitHumanResponse s message
  else
    let s := { s with isProcessing := true }
    let s := updateStatus s "thinking" "思考中..."
    let s := { s with sendButtonDisabled := true }
    let s := (addMessage s .user message false).1
    let s := { s with userInput := "" }
    streamChatResponse s

/-- Model of `resetConversation()`: mint a new thread id, clear the chat messages,
reset the intervention state, show the ready status and a notification.
No transport is closed and `isProcessing` is not cleared. -/
def resetConversation (ts : Nat) (rnd : String) (s : State) : State :=
  let s := { s with threadId := initThreadId ts rnd }
  let s := { s with messages := [] }
  let s := resetInterventionState s
  let s := updateStatus s "ready" "就绪"
  { s with notifications := s.notifications ++ ["已开始新对话"] }

end LGA.HL

namespace LGA.TA

/-- Mutable state of `ToolAssistant` (`src/unnamed/part_000`). -/
structure State where
  threadId : String
  isProcessing : Bool
  transports : List Bool
  currentES : Option Nat
  messages : List Msg
  nextMsgId : Nat
  currentAssistantMessage : Option Nat
  currentContent : String
  aiResponseContainer : Option (Nat × Nat)
  userInput : String
deriving DecidableEq

/-- Model of `initThreadId`: timestamp plus random suffix, `tool_` prefixed. -/
def threadIdOf (ts : Nat) (rnd : String) : String :=
  "tool_" ++ toString ts ++ "_" ++ rnd

/-- Fresh app state, with the generator inputs supplied explicitly. -/
def mkState (ts : Nat) (rnd : String) : State where
  threadId := threadIdOf ts rnd
  isProcessing := false
  transports := []
  currentES := none
  messages := []
  nextMsgId := 0
  currentAssistantMessage := none
  currentContent := ""
  aiResponseContainer := none
  userInput := ""

/-- Open a new `EventSource` into `this.currentEventSource`. -/
def openES (s : State) : State :=
  { s with transports := s.transports ++ [true], currentES := some s.transports.length }

/-- Is `this.currentEventSource` open? -/
def esOpenB (s : State) : Bool :=
  flagOpen s.transports s.currentES

/-- Model of `close()` on transport handle `i`. -/
def closeES (s : State) (i : Option Nat) : State :=
  match i with
  | some k => { s with transports := s.transports.set k false }
  | none => s

/-- Model of `addMessage(content, type, isEmpty)` of `ToolAssistant`. -/
def addMessage (s : State) (role : Role) (content : String) (isEmpty : Bool) :
    State × Nat :=
  let blocks := if isEmpty then [] else [Block.para content]
  ({ s with
      messages := s.messages ++ [⟨s.nextMsgId, role, blocks⟩]
      nextMsgId := s.nextMsgId + 1 },
   s.nextMsgId)

/-- Replace the content children of message `mid`. -/
def updateBlocks (s : State) (mid : Nat) (f : List Block → List Block) : State :=
  { s with
      messages := s.messages.map fun m =>
        if m.id = mid then { m with blocks := f m.blocks } else m }

/-- Current content children of message `mid`. -/
def blocksOf (s : State) (mid : Nat) : List Block :=
  ((s.messages.find? fun m => m.id = mid).map Msg.blocks).getD []

/-- Model of `ensureAssistantMessage()` of `streamResponse`. -/
def ensureAssistantMessage (s : State) : State × Nat :=
  match s.currentAssistantMessage with
  | some mid => (s, mid)
  | none =>
      let p := addMessage s .assistant "" true
      ({ p.1 with currentAssistantMessage := some p.2 }, p.2)

/-- Model of `addAIDecisionInfo` of `ToolAssistant` (no default text fallback). -/
def addAIDecisionInfo (s : State) (mid : Nat) (note : String) : State :=
  let s := if containsThinking (blocksOf s mid) then updateBlocks s mid (fun _ => []) else s
  updateBlocks s mid (fun bs => bs ++ [Block.decision note])

/-- Model of `addToolCallInfo` of `ToolAssistant`. -/
def addToolCallInfo (s : State) (mid : Nat) (name args : String) : State :=
  updateBlocks s mid (fun bs => bs ++ [Block.toolCallB name args])

/-- Model of `addToolResultInfo` of `ToolAssistant`: tool result block, then a fresh
ai-response-section that becomes the accumulation target, with the
accumulated text reset. -/
def addToolResultInfo (s : State) (mid : Nat) (result : String) : State :=
  let idx := (blocksOf s mid).length + 1
  let s := updateBlocks s mid (fun bs => bs ++ [Block.toolResultB result, Block.aiSection ""])
  { s with aiResponseContainer := some (mid, idx), currentContent := "" }

/-- Render into the ai-response-content at `(mid, idx)`. -/
def setSection (s : State) (mid idx : Nat) (text : String) : State :=
  updateBlocks s mid (fun bs => bs.set idx (Block.aiSection text))

/-- Model of `cleanupEmptyAssistantMessages()`: drop assistant messages still showing
only the thinking placeholder. -/
def cleanupEmpty (s : State) : State :=
  { s with messages := s.messages.filter fun m =>
      ¬(m.role = Role.assistant ∧ m.blocks = [Block.thinking]) }

/-- The `content` case of `streamResponse`'s handler (same target routing as
the human-loop app). -/
def onContent (s : State) (txt : String) : State :=
  let p := ensureAssistantMessage s
  let s := p.1
  let mid := p.2
  match s.aiResponseContainer with
  | some (m, idx) =>
      let s := { s with currentContent := s.currentContent ++ txt }
      setSection s m idx s.currentContent
  | none =>
      if hasToolInfo (blocksOf s mid) then
        let idx := (blocksOf s mid).length
        let s := updateBlocks s mid (fun bs => bs ++ [Block.aiSection ""])
        let s := { s with
          aiResponseContainer := some (mid, idx)
          currentContent := s.currentContent ++ txt }
        setSection s mid idx s.currentContent
      else
        let s := { s with currentContent := s.currentContent ++ txt }
        updateBlocks s mid (fun _ => [Block.para s.currentContent])

/-- One delivery of `streamResponse`'s `onmessage` handler; a stream event
with no matching case (such as `intervention_required`) falls through the
switch unchanged. -/
def onFrame (s : State) (f : Frame) : State :=
  match f with
  | .malformed _ => s
  | .ok e =>
    match e with
    | .start =>
        let p := ensureAssistantMessage s
        updateBlocks p.1 p.2 (fun _ => [Block.thinking])
    | .content txt => onContent s txt
    | .aiDecision note =>
        let p := ensureAssistantMessage s
        addAIDecisionInfo p.1 p.2 note
    | .toolCall name args =>
        let p := ensureAssistantMessage s
        addToolCallInfo p.1 p.2 name args
    | .toolResult result =>
        let p := ensureAssistantMessage s
        addToolResultInfo p.1 p.2 result
    | .endEv =>
        let s := closeES s s.currentES
        let s := { s with isProcessing := false }
        cleanupEmpty s
    | .intervention _ => s
    | .errEv msg =>
        let p := ensureAssistantMessage s
        let s := updateBlocks p.1 p.2 (fun _ => [Block.errorMsg msg])
        let s := closeES s s.currentES
        { s with isProcessing := false }

/-- Deliver a list of frames to `streamResponse`'s handler while the
connection is open. -/
def runStream (s : State) : List Frame → State
  | [] => s
  | f :: fs => runStream (if esOpenB s then onFrame s f else s) fs

/-- Model of `streamResponse` setup: cleanup, clear the per-turn fields, open the
`EventSource`. -/
def streamSetup (s : State) : State :=
  let s := cleanupEmpty s
  let s := { s with
    currentAssistantMessage := none
    currentContent := ""
    aiResponseContainer := none }
  openES s

/-- Put text in the input box. -/
def setUserInput (s : State) (x : String) : State :=
  { s with userInput := x }

/-- Model of `sendMessage()`: trim and reject empty input or a busy state, record the
user message, set the processing flag, set up the stream; the `finally`
clause clears the flag as soon as the async setup returns (before any event
arrives). -/
def sendMessage (s : State) : State :=
  let message := jsTrim s.userInput
  if message = "" then s
  else if s.isProcessing = true then s
  else
    let s := (addMessage s .user message false).1
    let s := { s with userInput := "", isProcessing := true }
    let s := streamSetup s
    { s with isProcessing := false }

end LGA.TA

namespace LGA.CS

/-- JavaScript truthiness of an optional string
(`undefined` and the empty string are falsy). -/
def truthy : Option String → Bool
  | none => false
  | some s => !(s = "")

/-- Query parameter construction shared by
`CustomizeStateApp.submitInterventionWithParams` and
`CustomizeStateApp.submitInterventionForm`: always `thread_id`; `correct`
when the flag is truthy; `name` / `birthday` only when the flag is falsy. -/
def respondParams (threadId : String) (correct name birthday : Option String) :
    List (String × String) :=
  let ps := [("thread_id", threadId)]
  let ps := if truthy correct then ps ++ [("correct", correct.getD "")] else ps
  if !truthy correct then
    let ps := if truthy name then ps ++ [("name", name.getD "")] else ps
    if truthy birthday then ps ++ [("birthday", birthday.getD "")] else ps
  else
    ps

/-- The confirmation flag read from the checkbox: `'y'` or `undefined`. -/
def formCorrect (checked : Bool) : Option String :=
  if checked then some "y" else none

/-- A correction field read from a text input:
`value.trim() || undefined`. -/
def formField (raw : String) : Option String :=
  if jsTrim raw = "" then none else some (jsTrim raw)

/-- The full resumption payload produced from the intervention form. -/
def submitFormParams (threadId : String) (checked : Bool)
    (nameRaw birthdayRaw : String) : List (String × String) :=
  respondParams threadId (formCorrect checked) (formField nameRaw) (formField birthdayRaw)

end LGA.CS

namespace LGA

/-- A fresh human-loop app state. -/
def ex0 : HL.State := HL.mkState 1 "ab"

/-- A session with a turn in flight: `sendMessage` on the fresh state. -/
def exBusy : HL.State := HL.sendMessage (HL.setUserInput ex0 "你好")

/-- The session after the turn stream delivered `intervention_required`. -/
def exAwait : HL.State := HL.runTurn exBusy [Frame.ok (StreamEvent.intervention "需要确认")]

/-- The session after the expert reply was submitted (resumption stream open). -/
def exResume : HL.State := HL.sendMessage (HL.setUserInput exAwait "专家意见")

/-- The session after the resumption stream delivered `intervention_required`
again (the recursive intervention case). -/
def exResusp : HL.State := HL.runResume exResume [Frame.ok (StreamEvent.intervention "再次确认")]

end LGA

namespace LGA

theorem getD_set_false (l : List Bool) (k : Nat) :
    (l.set k false).getD k false = false := by
  induction l generalizing k with
  | nil => rfl
  | cons a t ih =>
    cases k with
    | zero => rfl
    | succ n => simpa using ih n

theorem getElem?_set_false (l : List Bool) (k : Nat) :
    ((l.set k false)[k]?).getD false = false := by
  have h := getD_set_false l k
  simpa [List.getD] using h

theorem hl_runTurn_append (s : HL.State) (xs ys : List Frame) :
    HL.runTurn s (xs ++ ys) = HL.runTurn (HL.runTurn s xs) ys := by
  induction xs generalizing s with
  | nil => rfl
  | cons f fs ih =>
    rw [List.cons_append]
    simp only [HL.runTurn]
    exact ih _

theorem hl_runTurn_closed (s : HL.State) (fs : List Frame)
    (h : HL.esOpenB s = false) : HL.runTurn s fs = s := by
  induction fs with
  | nil => rfl
  | cons f fs ih => simp only [HL.runTurn, h, if_neg, Bool.false_eq_true, ite_false, ih]

theorem hl_runTurn_malformed (s : HL.State) (raw : String) (fs : List Frame) :
    HL.runTurn s (Frame.malformed raw :: fs) = HL.runTurn s fs := by
  cases h : HL.esOpenB s <;> simp [HL.runTurn, HL.onTurnFrame, h]

theorem hl_diag_append (s : HL.State) (xs ys : List Frame) :
    HL.turnDiagnostics s (xs ++ ys)
      = HL.turnDiagnostics s xs ++ HL.turnDiagnostics (HL.runTurn s xs) ys := by
  induction xs generalizing s with
  | nil => rfl
  | cons f fs ih =>
    rw [List.cons_append]
    cases h : HL.esOpenB s <;>
      simp [HL.turnDiagnostics, HL.runTurn, h, ih]

theorem hl_sendMessage_busy (s : HL.State) (h : s.isProcessing = true) :
    HL.sendMessage s = s := by
  unfold HL.sendMessage
  simp [h]

theorem hl_runResume_closed (s : HL.State) (fs : List Frame)
    (h : HL.resumeOpenB s = false) : HL.runResume s fs = s := by
  induction fs with
  | nil => rfl
  | cons f fs ih => simp only [HL.runResume, h, Bool.false_eq_true, ite_false, ih]

end LGA

namespace LGA

/-- C1: for every Turn, when an `intervention_required` event is delivered
while the Turn is active (the turn stream is open), the controller closes the
current Transport, enters the awaiting-human state (waiting flag set, status
`intervention`), and processes no further event of that Turn — in particular
no `content` event — after the `intervention_required` event. -/
theorem c1_intervention_closes_and_halts (s : HL.State) (q : String)
    (post : List Frame) (h : HL.esOpenB s = true) :
    HL.runTurn s (Frame.ok (StreamEvent.intervention q) :: post)
      = HL.onTurnFrame s (Frame.ok (StreamEvent.intervention q)) ∧
    HL.esOpenB (HL.onTurnFrame s (Frame.ok (StreamEvent.intervention q))) = false ∧
    (HL.onTurnFrame s (Frame.ok (StreamEvent.intervention q))).currentES = s.currentES ∧
    (HL.onTurnFrame s (Frame.ok (StreamEvent.intervention q))).isWaitingForHumanInput = true ∧
    (HL.onTurnFrame s (Frame.ok (StreamEvent.intervention q))).status
      = ("intervention", "等待人工协助...") := by
  obtain ⟨k, hk⟩ : ∃ k, s.currentES = some k := by
    cases hc : s.currentES with
    | none => simp [HL.esOpenB, flagOpen, hc] at h
    | some k => exact ⟨k, rfl⟩
  have hclosed : HL.esOpenB (HL.onTurnFrame s (Frame.ok (StreamEvent.intervention q))) = false := by
    cases hca : s.currentAssistantMessage <;>
      simp [HL.onTurnFrame, HL.closeES, hk, HL.showInterventionInChat, hca,
        HL.updateStatus, HL.addMessage, HL.esOpenB, flagOpen, getD_set_false,
        getElem?_set_false]
  refine ⟨?_, hclosed, ?_, ?_, ?_⟩
  · simp only [HL.runTurn, h, if_true]
    exact hl_runTurn_closed _ _ hclosed
  · cases hca : s.currentAssistantMessage <;>
      simp [HL.onTurnFrame, HL.closeES, hk, HL.showInterventionInChat, hca,
        HL.updateStatus, HL.addMessage]
  · cases hca : s.currentAssistantMessage <;>
      simp [HL.onTurnFrame, HL.closeES, hk, HL.showInterventionInChat, hca,
        HL.updateStatus, HL.addMessage]
  · cases hca : s.currentAssistantMessage <;>
      simp [HL.onTurnFrame, HL.closeES, hk, HL.showInterventionInChat, hca,
        HL.updateStatus, HL.addMessage]

theorem c1_witness :
    HL.esOpenB exBusy = true ∧
    (HL.runTurn exBusy
        [Frame.ok (StreamEvent.intervention "需要确认"), Frame.ok (StreamEvent.content "x")]
      = HL.onTurnFrame exBusy (Frame.ok (StreamEvent.intervention "需要确认")) ∧
    HL.esOpenB (HL.onTurnFrame exBusy (Frame.ok (StreamEvent.intervention "需要确认"))) = false ∧
    (HL.onTurnFrame exBusy (Frame.ok (StreamEvent.intervention "需要确认"))).currentES
      = exBusy.currentES ∧
    (HL.onTurnFrame exBusy (Frame.ok (StreamEvent.intervention "需要确认"))).isWaitingForHumanInput
      = true ∧
    (HL.onTurnFrame exBusy (Frame.ok (StreamEvent.intervention "需要确认"))).status
      = ("intervention", "等待人工协助...")) :=
  ⟨by decide,
   c1_intervention_closes_and_halts exBusy "需要确认"
     [Frame.ok (StreamEvent.content "x")] (by decide)⟩

/-- C2: for every session with a turn in flight (`isProcessing` true),
`sendMessage` is a no-op: the state is unchanged, so no Transport is opened,
no message is recorded, and the in-flight Turn is unaffected. -/
theorem c2_streaming_send_rejected (s : HL.State) (h : s.isProcessing = true) :
    HL.sendMessage s = s :=
  hl_sendMessage_busy s h

theorem c2_witness : exBusy.isProcessing = true ∧ HL.sendMessage exBusy = exBusy :=
  ⟨by decide, c2_streaming_send_rejected exBusy (by decide)⟩

/-- C8: a malformed (undecodable) frame does not terminate the Turn: the
resulting state is exactly the state of the same stream without the malformed
frame (it is skipped, all later well-formed frames are processed normally),
and the decode failure is reported to the diagnostic sink. -/
theorem c8_malformed_skipped (s : HL.State) (pre post : List Frame) (raw : String) :
    HL.runTurn s (pre ++ Frame.malformed raw :: post) = HL.runTurn s (pre ++ post) ∧
    (HL.esOpenB (HL.runTurn s pre) = true →
      raw ∈ HL.turnDiagnostics s (pre ++ [Frame.malformed raw])) := by
  constructor
  · rw [hl_runTurn_append, hl_runTurn_append, hl_runTurn_malformed]
  · intro h
    rw [hl_diag_append]
    simp [HL.turnDiagnostics, h]

theorem c8_witness :
    HL.runTurn exBusy [Frame.malformed "bad json", Frame.ok StreamEvent.endEv]
      = HL.runTurn exBusy [Frame.ok StreamEvent.endEv] ∧
    "bad json" ∈ HL.turnDiagnostics exBusy [Frame.malformed "bad json"] := by
  have h := c8_malformed_skipped exBusy [] [Frame.ok StreamEvent.endEv] "bad json"
  exact ⟨h.1, h.2 (by decide)⟩

end LGA

namespace LGA

/-- C9: a transport-level connection failure (the `onerror` handler, no
terminal event received) is treated as an error with the generic connection
message, the transport is closed, the busy flag is cleared, and — exactly when
no content had yet been produced in the Turn — the fallback failure message is
appended in place of the empty response. -/
theorem c9_transport_failure (s : HL.State) :
    (HL.onTurnError s).status = ("error", "连接错误") ∧
    (HL.onTurnError s).isProcessing = false ∧
    HL.esOpenB (HL.onTurnError s) = false ∧
    (HL.onTurnError s).messages = s.messages ++
      (if s.currentAssistantMessage.isNone ∨ s.currentContent = "" then
        [⟨s.nextMsgId, Role.assistant, [Block.para "连接失败，请稍后再试。"]⟩] else []) := by
  by_cases hcond : (s.currentAssistantMessage = none ∨ s.currentContent = "") <;>
    cases hc : s.currentES <;>
      simp [HL.onTurnError, HL.closeES, hc, HL.updateStatus, HL.addMessage,
        HL.esOpenB, flagOpen, getD_set_false, getElem?_set_false,
        Option.isNone_iff_eq_none, hcond]

/-- C10: an empty or whitespace-only human response is rejected at the
client: `submitHumanResponse` with the (trimmed) empty response only shows a
notification — no resumption Transport is opened, no conversation entry is
recorded, the awaiting-human state is untouched — and `sendMessage` with
whitespace-only input is a complete no-op. -/
theorem c10_empty_response_rejected (s : HL.State) (raw : String)
    (h : jsTrim raw = "") :
    HL.submitHumanResponse s (jsTrim raw)
      = { s with notifications := s.notifications ++ ["请输入回复内容"] } ∧
    HL.sendMessage (HL.setUserInput s raw) = HL.setUserInput s raw := by
  constructor
  · rw [h]
    simp [HL.submitHumanResponse]
  · simp [HL.sendMessage, HL.setUserInput, h]

theorem c10_witness :
    exAwait.isWaitingForHumanInput = true ∧
    (HL.submitHumanResponse exAwait (jsTrim "   ")
      = { exAwait with notifications := exAwait.notifications ++ ["请输入回复内容"] } ∧
    HL.sendMessage (HL.setUserInput exAwait "   ") = HL.setUserInput exAwait "   ") :=
  ⟨by decide, c10_empty_response_rejected exAwait "   " (by decide)⟩

/-- C4 counterexample: a session with an open turn Transport, on which
`resetConversation` is called — the transport handle is unchanged and still
open after the reset, contradicting the claim that after `reset()` no
Transport opened before the reset remains open. -/
theorem c4_counterexample :
    HL.esOpenB exBusy = true ∧
    (HL.resetConversation 2 "cd" exBusy).currentES = exBusy.currentES ∧
    HL.esOpenB (HL.resetConversation 2 "cd" exBusy) = true := by
  refine ⟨by decide, rfl, by decide⟩

/-- C4 amended: `resetConversation` discards the Thread and resets the
intervention state, but closes nothing: the transport open flags and both
connection handles are exactly those of the state before the reset. -/
theorem c4_reset_keeps_transports (ts : Nat) (rnd : String) (s : HL.State) :
    (HL.resetConversation ts rnd s).transports = s.transports ∧
    (HL.resetConversation ts rnd s).currentES = s.currentES ∧
    (HL.resetConversation ts rnd s).resumeES = s.resumeES :=
  ⟨rfl, rfl, rfl⟩

/-- C6 counterexample: calling `resetConversation` during a streaming turn
leaves `isProcessing` set, so the session still rejects a new turn — it is
not left in the Idle (ready-to-start) state; moreover, when the thread id
generator yields the same timestamp/random pair again, the "new" thread id
equals the previous one. -/
theorem c6_counterexample :
    (HL.resetConversation 2 "cd" exBusy).isProcessing = true ∧
    HL.sendMessage (HL.setUserInput (HL.resetConversation 2 "cd" exBusy) "下一个问题")
      = HL.setUserInput (HL.resetConversation 2 "cd" exBusy) "下一个问题" ∧
    (HL.resetConversation 1 "ab" ex0).threadId = ex0.threadId := by
  refine ⟨rfl, by decide, rfl⟩

/-- C6 amended: `resetConversation` shows the ready status, clears the
awaiting-human state, and installs the freshly generated thread id — distinct
from the previous one whenever the generator output differs from the string
that produced it — but leaves `isProcessing` unchanged, so a reset during a
streaming turn does not return the session to Idle. -/
theorem c6_reset_state (ts : Nat) (rnd : String) (s : HL.State) :
    (HL.resetConversation ts rnd s).status = ("ready", "就绪") ∧
    (HL.resetConversation ts rnd s).isWaitingForHumanInput = false ∧
    (HL.resetConversation ts rnd s).threadId = HL.initThreadId ts rnd ∧
    (HL.resetConversation ts rnd s).isProcessing = s.isProcessing ∧
    (s.threadId ≠ HL.initThreadId ts rnd →
      (HL.resetConversation ts rnd s).threadId ≠ s.threadId) := by
  refine ⟨rfl, rfl, rfl, rfl, ?_⟩
  intro h
  show HL.initThreadId ts rnd ≠ s.threadId
  exact fun heq => h heq.symm

theorem c6_witness :
    (HL.resetConversation 2 "cd" exBusy).threadId ≠ exBusy.threadId ∧
    (HL.resetConversation 2 "cd" exBusy).isProcessing = exBusy.isProcessing :=
  ⟨(c6_reset_state 2 "cd" exBusy).2.2.2.2 (by decide),
   (c6_reset_state 2 "cd" exBusy).2.2.2.1⟩

end LGA

namespace LGA

/-- C5 counterexample: after a resumption stream itself delivers
`intervention_required` (state `exResusp`), the awaiting-human UI state is
re-entered but `isProcessing` is still set, so submitting a further human
response through the input box is a complete no-op — unlike a first
suspension, which clears the processing guard and accepts the response. -/
theorem c5_counterexample :
    exResusp.isWaitingForHumanInput = true ∧
    exResusp.isProcessing = true ∧
    HL.resumeOpenB exResusp = false ∧
    HL.sendMessage (HL.setUserInput exResusp "后续回复")
      = HL.setUserInput exResusp "后续回复" := by
  refine ⟨rfl, rfl, rfl, by decide⟩

/-- C5 amended: when the resumption stream delivers `intervention_required`,
the coordinator closes the resumption Transport, re-enters the awaiting-human
state and processes no further event of that resumption stream, with no depth
special-casing — but unlike a first suspension it leaves `isProcessing` set,
so a further human response typed into the input box is rejected while the
flag remains set. -/
theorem c5_resuspension_blocks_input (s : HL.State) (q : String)
    (post : List Frame) (x : String)
    (hopen : HL.resumeOpenB s = true) (hproc : s.isProcessing = true) :
    HL.runResume s (Frame.ok (StreamEvent.intervention q) :: post)
      = HL.onResumeFrame s (Frame.ok (StreamEvent.intervention q)) ∧
    HL.resumeOpenB (HL.onResumeFrame s (Frame.ok (StreamEvent.intervention q))) = false ∧
    (HL.onResumeFrame s (Frame.ok (StreamEvent.intervention q))).isWaitingForHumanInput = true ∧
    (HL.onResumeFrame s (Frame.ok (StreamEvent.intervention q))).status
      = ("intervention", "等待人工协助...") ∧
    (HL.onResumeFrame s (Frame.ok (StreamEvent.intervention q))).isProcessing = true ∧
    HL.sendMessage
        (HL.setUserInput (HL.onResumeFrame s (Frame.ok (StreamEvent.intervention q))) x)
      = HL.setUserInput (HL.onResumeFrame s (Frame.ok (StreamEvent.intervention q))) x := by
  obtain ⟨k, hk⟩ : ∃ k, s.resumeES = some k := by
    cases hc : s.resumeES with
    | none => simp [HL.resumeOpenB, flagOpen, hc] at hopen
    | some k => exact ⟨k, rfl⟩
  have hclosed :
      HL.resumeOpenB (HL.onResumeFrame s (Frame.ok (StreamEvent.intervention q))) = false := by
    cases hca : s.currentAssistantMessage <;>
      simp [HL.onResumeFrame, HL.closeES, hk, HL.showInterventionInChat, hca,
        HL.updateStatus, HL.addMessage, HL.resumeOpenB, flagOpen, getD_set_false,
        getElem?_set_false]
  have hpr :
      (HL.onResumeFrame s (Frame.ok (StreamEvent.intervention q))).isProcessing = true := by
    cases hca : s.currentAssistantMessage <;>
      simp [HL.onResumeFrame, HL.closeES, hk, HL.showInterventionInChat, hca,
        HL.updateStatus, HL.addMessage, hproc]
  refine ⟨?_, hclosed, ?_, ?_, hpr, ?_⟩
  · simp only [HL.runResume, hopen, if_true]
    exact hl_runResume_closed _ _ hclosed
  · cases hca : s.currentAssistantMessage <;>
      simp [HL.onResumeFrame, HL.closeES, hk, HL.showInterventionInChat, hca,
        HL.updateStatus, HL.addMessage]
  · cases hca : s.currentAssistantMessage <;>
      simp [HL.onResumeFrame, HL.closeES, hk, HL.showInterventionInChat, hca,
        HL.updateStatus, HL.addMessage]
  · exact hl_sendMessage_busy _ hpr

theorem c5_witness :
    HL.resumeOpenB exResume = true ∧
    exResume.isProcessing = true ∧
    (HL.runResume exResume
        [Frame.ok (StreamEvent.intervention "再次确认"), Frame.ok (StreamEvent.content "x")]
      = HL.onResumeFrame exResume (Frame.ok (StreamEvent.intervention "再次确认")) ∧
    HL.resumeOpenB (HL.onResumeFrame exResume (Frame.ok (StreamEvent.intervention "再次确认")))
      = false ∧
    (HL.onResumeFrame exResume
        (Frame.ok (StreamEvent.intervention "再次确认"))).isWaitingForHumanInput = true ∧
    (HL.onResumeFrame exResume (Frame.ok (StreamEvent.intervention "再次确认"))).status
      = ("intervention", "等待人工协助...") ∧
    (HL.onResumeFrame exResume (Frame.ok (StreamEvent.intervention "再次确认"))).isProcessing
      = true ∧
    HL.sendMessage
        (HL.setUserInput
          (HL.onResumeFrame exResume (Frame.ok (StreamEvent.intervention "再次确认"))) "补充")
      = HL.setUserInput
          (HL.onResumeFrame exResume (Frame.ok (StreamEvent.intervention "再次确认"))) "补充") :=
  ⟨by decide, by decide,
   c5_resuspension_blocks_input exResume "再次确认" [Frame.ok (StreamEvent.content "x")] "补充"
     (by decide) (by decide)⟩

end LGA

namespace LGA

/-- C7: exactly one payload shape is sent on resumption: with the
confirmation checkbox checked the query carries `thread_id` and the
confirmation flag only (no `name`/`birthday` field overrides); with the
checkbox unchecked no confirmation flag is sent and the field overrides are
included exactly when their trimmed form inputs are nonempty. -/
theorem c7_payload_shape (tid : String) (checked : Bool) (nameRaw birthdayRaw : String) :
    CS.submitFormParams tid checked nameRaw birthdayRaw =
      (if checked then [("thread_id", tid), ("correct", "y")]
       else [("thread_id", tid)]
         ++ (if jsTrim nameRaw = "" then [] else [("name", jsTrim nameRaw)])
         ++ (if jsTrim birthdayRaw = "" then [] else [("birthday", jsTrim birthdayRaw)])) := by
  cases checked <;>
    by_cases hn : jsTrim nameRaw = "" <;>
      by_cases hb : jsTrim birthdayRaw = "" <;>
        simp [CS.submitFormParams, CS.respondParams, CS.formCorrect, CS.formField,
          CS.truthy, hn, hb]

end LGA

namespace LGA

/-- C3: for a Turn whose event sequence is `tool_call(search)`,
`tool_result(42)`, `content("The answer is ")`, `content("42")`, `end`,
exactly two Segments exist at the end of the Turn: the post-tool content is
rendered into the ai-response-section — a Segment distinct from the (empty)
direct content area holding any pre-tool content — and that second Segment's
accumulated text is `"The answer is 42"`. -/
theorem c3_tool_segments (input args : String) (frames : List Frame)
    (hin : ¬ jsTrim input = "")
    (hfr : frames = [Frame.ok (StreamEvent.toolCall "search" args),
                     Frame.ok (StreamEvent.toolResult "42"),
                     Frame.ok (StreamEvent.content "The answer is "),
                     Frame.ok (StreamEvent.content "42"),
                     Frame.ok StreamEvent.endEv]) :
    (TA.runStream (TA.sendMessage (TA.setUserInput (TA.mkState 1 "ab") input)) frames).messages
      = [⟨0, Role.user, [Block.para (jsTrim input)]⟩,
         ⟨1, Role.assistant,
           [Block.toolCallB "search" args, Block.toolResultB "42",
            Block.aiSection "The answer is 42"]⟩] ∧
    ((TA.runStream (TA.sendMessage (TA.setUserInput (TA.mkState 1 "ab") input)) frames).messages.map
        segmentsOf)
      = [[jsTrim input], ["", "The answer is 42"]] := by
  subst hfr
  have hmsg :
      (TA.runStream (TA.sendMessage (TA.setUserInput (TA.mkState 1 "ab") input))
          [Frame.ok (StreamEvent.toolCall "search" args),
           Frame.ok (StreamEvent.toolResult "42"),
           Frame.ok (StreamEvent.content "The answer is "),
           Frame.ok (StreamEvent.content "42"),
           Frame.ok StreamEvent.endEv]).messages
        = [⟨0, Role.user, [Block.para (jsTrim input)]⟩,
           ⟨1, Role.assistant,
             [Block.toolCallB "search" args, Block.toolResultB "42",
              Block.aiSection "The answer is 42"]⟩] := by
    simp [TA.sendMessage, TA.setUserInput, TA.mkState, hin, TA.addMessage, TA.streamSetup,
      TA.cleanupEmpty, TA.openES, TA.threadIdOf, TA.runStream, TA.onFrame, TA.esOpenB,
      flagOpen, TA.ensureAssistantMessage, TA.addToolCallInfo, TA.addToolResultInfo,
      TA.updateBlocks, TA.blocksOf, TA.onContent, TA.setSection, TA.closeES, hasToolInfo,
      containsThinking]
  refine ⟨hmsg, ?_⟩
  rw [hmsg]
  simp [segmentsOf, primaryText, sectionTexts]

end LGA

namespace LGA

theorem c3_witness :
    (TA.runStream (TA.sendMessage (TA.setUserInput (TA.mkState 1 "ab") "答案是什么"))
        [Frame.ok (StreamEvent.toolCall "search" ""),
         Frame.ok (StreamEvent.toolResult "42"),
         Frame.ok (StreamEvent.content "The answer is "),
         Frame.ok (StreamEvent.content "42"),
         Frame.ok StreamEvent.endEv]).messages
      = [⟨0, Role.user, [Block.para (jsTrim "答案是什么")]⟩,
         ⟨1, Role.assistant,
           [Block.toolCallB "search" "", Block.toolResultB "42",
            Block.aiSection "The answer is 42"]⟩] ∧
    ((TA.runStream (TA.sendMessage (TA.setUserInput (TA.mkState 1 "ab") "答案是什么"))
        [Frame.ok (StreamEvent.toolCall "search" ""),
         Frame.ok (StreamEvent.toolResult "42"),
         Frame.ok (StreamEvent.content "The answer is "),
         Frame.ok (StreamEvent.content "42"),
         Frame.ok StreamEvent.endEv]).messages.map segmentsOf)
      = [[jsTrim "答案是什么"], ["", "The answer is 42"]] :=
  c3_tool_segments "答案是什么" ""
    [Frame.ok (StreamEvent.toolCall "search" ""),
     Frame.ok (StreamEvent.toolResult "42"),
     Frame.ok (StreamEvent.content "The answer is "),
     Frame.ok (StreamEvent.content "42"),
     Frame.ok StreamEvent.endEv] (by decide) rfl

end LGA
